import Mathlib

/-!
Verification of the pinocchio secp256r1 vault program.

Shallow embedding of `src/lib.rs`: byte sequences are `List Nat` (each
element a byte value), machine integers are `Nat`/`Int` with explicit
two's-complement decoding where the source reads them from bytes, and
fallible Rust code returns `Except ProgramError`.  External collaborators
(the address-derivation function, the system transfer primitive, the
instruction-introspection facility and the clock) are modelled as an
explicit `Chain` context, following the spec's description of those
interfaces.
-/

namespace Vault

/-- A ledger address / public key, as a byte sequence. -/
abbrev Pubkey := List Nat

/-- Error kinds returned by the program, from `pinocchio::program_error`.
`Custom` stands for errors surfaced by invoked programs. -/
inductive ProgramError where
  | NotEnoughAccountKeys
  | InvalidAccountOwner
  | InvalidAccountData
  | InvalidInstructionData
  | MissingRequiredSignature
  | InvalidSeeds
  | Custom (code : Nat)
deriving DecidableEq, Repr

/-- The program's own address, `pub const ID` in the source. -/
def ID : Pubkey :=
  [0x0f, 0x1e, 0x6b, 0x14, 0x21, 0xc0, 0x4a, 0x07,
   0x04, 0x31, 0x26, 0x5c, 0x19, 0xc5, 0xbb, 0xee,
   0x19, 0x92, 0xba, 0xe8, 0xaf, 0xd1, 0xcd, 0x07,
   0x8e, 0xf8, 0xaf, 0x70, 0x47, 0xdc, 0x11, 0xf7]

/-- The native system program's address (`pinocchio_system::ID`, the
all-zero address). -/
def system_ID : Pubkey := List.replicate 32 0

/-- The literal seed bytes of `b"vault"`. -/
def vaultSeed : List Nat := [118, 97, 117, 108, 116]

/-- An account as visible to the program: address, owning program,
native balance in lamports, and whether it signed the transaction. -/
structure AccountInfo where
  key : Pubkey
  owner : Pubkey
  lamports : Nat
  signer : Bool
deriving DecidableEq, Repr

/-- `AccountInfo::is_signer`. -/
def AccountInfo.is_signer (a : AccountInfo) : Bool := a.signer

/-- `AccountInfo::is_owned_by`. -/
def AccountInfo.is_owned_by (a : AccountInfo) (p : Pubkey) : Bool := a.owner = p

/-- `u64::from_le_bytes`: little-endian unsigned decoding. -/
def u64_from_le_bytes (bs : List Nat) : Nat :=
  bs.foldr (fun b acc => b + 256 * acc) 0

/-- `i64::from_le_bytes`: little-endian two's-complement decoding of an
8-byte sequence. -/
def i64_from_le_bytes (bs : List Nat) : Int :=
  let u := u64_from_le_bytes bs
  if u < 2 ^ 63 then (u : Int) else (u : Int) - 2 ^ 64

/-- `slice::split_at_checked`: `none` when the slice is shorter than `n`. -/
def split_at_checked (n : Nat) (l : List Nat) : Option (List Nat × List Nat) :=
  if n ≤ l.length then some (l.take n, l.drop n) else none

/-- The secp256r1 signature-verification instruction as seen through
introspection (`Secp256r1Instruction`): a signature count, the claimed
signer public keys (33 bytes each) and the signed messages. -/
structure Secp256r1Ix where
  num_signatures : Nat
  signers : List (List Nat)
  messages : List (List Nat)
deriving DecidableEq, Repr

/-- `Secp256r1Instruction::get_signer`. -/
def Secp256r1Ix.get_signer (ix : Secp256r1Ix) (i : Nat) :
    Except ProgramError (List Nat) :=
  match ix.signers[i]? with
  | some s => Except.ok s
  | none => Except.error ProgramError.InvalidInstructionData

/-- `Secp256r1Instruction::get_message_data`. -/
def Secp256r1Ix.get_message_data (ix : Secp256r1Ix) (i : Nat) :
    Except ProgramError (List Nat) :=
  match ix.messages[i]? with
  | some m => Except.ok m
  | none => Except.error ProgramError.InvalidInstructionData

/-- Modelled from the spec: the host-ledger context a single invocation
sees.  `find_program_address` maps ordered seed segments and a program
identity to a derived address and bump; `create_program_address` maps
seed segments (bump included) to a derived address, failing when the
result would be on-curve; `sibling` is the combined outcome of
`Instructions::try_from`, `get_instruction_relative(1)` and
`Secp256r1Instruction::try_from` (the introspected instruction at
relative offset +1, or the error if it is absent or malformed); `now` is
the clock sysvar's `unix_timestamp`. -/
structure Chain where
  find_program_address : List (List Nat) → Pubkey → Pubkey × Nat
  create_program_address : List (List Nat) → Pubkey → Option Pubkey
  sibling : Except ProgramError Secp256r1Ix
  now : Int

/-- Modelled from the spec: the native value-transfer primitive
(`pinocchio_system::instructions::Transfer::invoke`).  The debited
account must have signed; the transfer fails if the balance is
insufficient; otherwise the amount moves.  Returns the updated
(source, destination) pair. -/
def transfer_invoke (source dest : AccountInfo) (lamports : Nat) :
    Except ProgramError (AccountInfo × AccountInfo) :=
  if !source.is_signer then Except.error ProgramError.MissingRequiredSignature
  else if source.lamports < lamports then Except.error (ProgramError.Custom 1)
  else Except.ok
    ({ source with lamports := source.lamports - lamports },
     { dest with lamports := dest.lamports + lamports })

/-- Modelled from the spec: `Transfer::invoke_signed`, a transfer whose
debit authority is the program acting for a derived address.  The host
runtime recomputes the derived address from the supplied seed segments
under the calling program's identity; the debited account is considered
signed exactly when its address equals that recomputation (the derived
address is off-curve, so no private-key signature can exist for it). -/
def transfer_invoke_signed (ch : Chain) (source dest : AccountInfo)
    (lamports : Nat) (seeds : List (List Nat)) :
    Except ProgramError (AccountInfo × AccountInfo) :=
  match ch.create_program_address seeds ID with
  | none => Except.error ProgramError.InvalidSeeds
  | some derived =>
    if source.key ≠ derived then Except.error ProgramError.MissingRequiredSignature
    else if source.lamports < lamports then Except.error (ProgramError.Custom 1)
    else Except.ok
      ({ source with lamports := source.lamports - lamports },
       { dest with lamports := dest.lamports + lamports })

/-- `DepositAccount`: the validated accounts of a Deposit. -/
structure DepositAccount where
  payer : AccountInfo
  vault : AccountInfo
deriving DecidableEq, Repr

/-- `DepositAccount::try_from`: exactly three accounts; the payer must be
a signer, the vault must be owned by the system program and hold zero
lamports. -/
def DepositAccount.try_from (accounts : List AccountInfo) :
    Except ProgramError DepositAccount :=
  match accounts with
  | [payer, vault, _] =>
    if !payer.is_signer then Except.error ProgramError.InvalidAccountOwner
    else if !vault.is_owned_by system_ID then Except.error ProgramError.InvalidAccountOwner
    else if vault.lamports ≠ 0 then Except.error ProgramError.InvalidAccountData
    else Except.ok ⟨payer, vault⟩
  | _ => Except.error ProgramError.NotEnoughAccountKeys

/-- `DepositInstructionData`: a 33-byte compressed secp256r1 public key
and a `u64` amount. -/
structure DepositInstructionData where
  pubkey : List Nat
  amount : Nat
deriving DecidableEq, Repr

/-- `DepositInstructionData::try_from`: the payload must be exactly
`size_of::<Self>() = 41` bytes; it is split at 33 into key and amount. -/
def DepositInstructionData.try_from (data : List Nat) :
    Except ProgramError DepositInstructionData :=
  if data.length ≠ 41 then Except.error ProgramError.InvalidInstructionData
  else Except.ok ⟨data.take 33, u64_from_le_bytes (data.drop 33)⟩

/-- `Deposit`: validated accounts plus parsed instruction data. -/
structure Deposit where
  accounts : DepositAccount
  instruction_data : DepositInstructionData
deriving DecidableEq, Repr

/-- `Deposit::try_from`: accounts are validated first, then the
payload is parsed. -/
def Deposit.try_from (data : List Nat) (accounts : List AccountInfo) :
    Except ProgramError Deposit := do
  let accounts ← DepositAccount.try_from accounts
  let instruction_data ← DepositInstructionData.try_from data
  Except.ok ⟨accounts, instruction_data⟩

/-- `Deposit::process`: derive the expected vault address from seeds
`[b"vault", pubkey[0..1], pubkey[1..33]]` under the program's own ID,
reject with `InvalidAccountOwner` on mismatch, then transfer `amount`
from payer to vault. -/
def Deposit.process (ch : Chain) (d : Deposit) :
    Except ProgramError (AccountInfo × AccountInfo) :=
  let vault_key := (ch.find_program_address
    [vaultSeed,
     d.instruction_data.pubkey.take 1,
     (d.instruction_data.pubkey.drop 1).take 32] ID).1
  if vault_key ≠ d.accounts.vault.key then Except.error ProgramError.InvalidAccountOwner
  else transfer_invoke d.accounts.payer d.accounts.vault d.instruction_data.amount

/-- `WithdrawAccounts`: the validated accounts of a Withdraw. -/
structure WithdrawAccounts where
  payer : AccountInfo
  vault : AccountInfo
  instructions : AccountInfo
deriving DecidableEq, Repr

/-- `WithdrawAccounts::try_from`: exactly four accounts; the payer must
be a signer, the vault must be owned by the system program and hold a
non-zero balance. -/
def WithdrawAccounts.try_from (accounts : List AccountInfo) :
    Except ProgramError WithdrawAccounts :=
  match accounts with
  | [payer, vault, instructions, _] =>
    if !payer.is_signer then Except.error ProgramError.InvalidAccountOwner
    else if !vault.is_owned_by system_ID then Except.error ProgramError.InvalidAccountOwner
    else if vault.lamports = 0 then Except.error ProgramError.InvalidAccountData
    else Except.ok ⟨payer, vault, instructions⟩
  | _ => Except.error ProgramError.NotEnoughAccountKeys

/-- `WithdrawInstructionData`: the one-byte derivation bump. -/
structure WithdrawInstructionData where
  bump : List Nat
deriving DecidableEq, Repr

/-- `WithdrawInstructionData::try_from`: takes the first payload byte
(`data.first().ok_or(InvalidAccountData)`); an empty payload fails with
`InvalidAccountData` and any further bytes are ignored. -/
def WithdrawInstructionData.try_from (data : List Nat) :
    Except ProgramError WithdrawInstructionData :=
  match data.head? with
  | some b => Except.ok ⟨[b]⟩
  | none => Except.error ProgramError.InvalidAccountData

/-- `Withdraw`: validated accounts plus parsed instruction data. -/
structure Withdraw where
  accounts : WithdrawAccounts
  instruction_data : WithdrawInstructionData
deriving DecidableEq, Repr

/-- `Withdraw::try_from`: accounts are validated first, then the payload
is parsed. -/
def Withdraw.try_from (data : List Nat) (accounts : List AccountInfo) :
    Except ProgramError Withdraw := do
  let accounts ← WithdrawAccounts.try_from accounts
  let instruction_data ← WithdrawInstructionData.try_from data
  Except.ok ⟨accounts, instruction_data⟩

/-- `Withdraw::process`: introspect the sibling secp256r1 instruction,
require exactly one signature, extract signer and message, split the
message at 32 into payer claim and expiry bytes, bind the claim to the
actual payer, read the clock, decode and compare the expiry, then
transfer the vault's entire balance to the payer signed by the seeds
`[b"vault", signer[0..1], signer[1..], bump]`.  Returns the updated
(payer, vault) pair. -/
def Withdraw.process (ch : Chain) (w : Withdraw) :
    Except ProgramError (AccountInfo × AccountInfo) := do
  let secp ← ch.sibling
  if secp.num_signatures ≠ 1 then Except.error ProgramError.InvalidInstructionData
  else do
  let signer ← secp.get_signer 0
  let msg ← secp.get_message_data 0
  match split_at_checked 32 msg with
  | none => Except.error ProgramError.InvalidInstructionData
  | some (payerClaim, expiryBytes) =>
    if w.accounts.payer.key ≠ payerClaim then Except.error ProgramError.InvalidAccountOwner
    else
      let now := ch.now
      if expiryBytes.length ≠ 8 then Except.error ProgramError.InvalidInstructionData
      else
        let expiry := i64_from_le_bytes expiryBytes
        if now > expiry then Except.error ProgramError.InvalidInstructionData
        else do
          let (v, p) ← transfer_invoke_signed ch w.accounts.vault w.accounts.payer
            w.accounts.vault.lamports
            [vaultSeed, signer.take 1, signer.drop 1, w.instruction_data.bump]
          Except.ok (p, v)

/-- `process_instruction`: dispatch on the first byte (`0` = Deposit,
`1` = Withdraw); anything else, including an empty instruction, fails
with `InvalidAccountData`.  An error result carries no state change. -/
def process_instruction (ch : Chain) (accounts : List AccountInfo)
    (instruction_data : List Nat) :
    Except ProgramError (AccountInfo × AccountInfo) :=
  match instruction_data with
  | 0 :: data => do Deposit.process ch (← Deposit.try_from data accounts)
  | 1 :: data => do Withdraw.process ch (← Withdraw.try_from data accounts)
  | _ => Except.error ProgramError.InvalidAccountData

/-! Concrete fixtures used to instantiate the theorems: a toy (injective
by construction) derivation function, concrete accounts and a concrete
introspected signature instruction. -/

/-- A concrete 32-byte payer address. -/
def keyA : Pubkey := List.replicate 32 1

/-- A concrete 33-byte compressed secp256r1 public key. -/
def pkey33 : List Nat := List.replicate 33 7

/-- Little-endian encoding of the expiry timestamp 100. -/
def expiryBytes100 : List Nat := [100, 0, 0, 0, 0, 0, 0, 0]

/-- A 40-byte signed message: payer address followed by expiry. -/
def msg40 : List Nat := keyA ++ expiryBytes100

/-- A concrete introspected secp256r1 instruction with one signature. -/
def secp0 : Secp256r1Ix := ⟨1, [pkey33], [msg40]⟩

/-- A toy `find_program_address`: concatenates the seed segments and the
program id (injective on well-formed seed lists, like the real hash). -/
def toyFind (seeds : List (List Nat)) (pid : Pubkey) : Pubkey × Nat :=
  (seeds.flatten ++ pid, 255)

/-- A toy `create_program_address`, total for simplicity. -/
def toyCreate (seeds : List (List Nat)) (pid : Pubkey) : Option Pubkey :=
  some (seeds.flatten ++ pid)

/-- The toy-derived vault address for `pkey33` without a bump (Deposit). -/
def dVaultKey : Pubkey := vaultSeed ++ pkey33 ++ ID

/-- The toy-derived vault address for `pkey33` with bump 42 (Withdraw). -/
def wVaultKey : Pubkey := vaultSeed ++ pkey33 ++ [42] ++ ID

/-- A signing payer account holding 500 lamports. -/
def payerAcc : AccountInfo := ⟨keyA, system_ID, 500, true⟩

/-- The same payer, not a transaction signer. -/
def nonSignerAcc : AccountInfo := ⟨keyA, system_ID, 500, false⟩

/-- An empty system-owned vault at the Deposit-derived address. -/
def vaultEmpty : AccountInfo := ⟨dVaultKey, system_ID, 0, false⟩

/-- A funded system-owned vault at the Withdraw-derived address. -/
def vaultFunded : AccountInfo := ⟨wVaultKey, system_ID, 900, false⟩

/-- The instructions sysvar account slot. -/
def ixAcc : AccountInfo := ⟨List.replicate 32 3, system_ID, 0, false⟩

/-- The unused trailing account slot. -/
def extraAcc : AccountInfo := ⟨List.replicate 32 4, system_ID, 0, false⟩

/-- A chain context whose clock (50) is before the expiry (100). -/
def chOk : Chain := ⟨toyFind, toyCreate, Except.ok secp0, 50⟩

/-- A chain context whose clock (101) is just past the expiry (100). -/
def chExpired : Chain := ⟨toyFind, toyCreate, Except.ok secp0, 101⟩

/-- A concrete well-formed Withdraw request with bump 42. -/
def w0 : Withdraw := ⟨⟨payerAcc, vaultFunded, ixAcc⟩, ⟨[42]⟩⟩

/-- A concrete Withdraw request with the wrong bump 43. -/
def wBadBump : Withdraw := ⟨⟨payerAcc, vaultFunded, ixAcc⟩, ⟨[43]⟩⟩

/-- A system-owned vault at the Deposit-derived address holding 5 lamports. -/
def vaultNonzero : AccountInfo := ⟨dVaultKey, system_ID, 5, false⟩

/-- A system-owned empty account at an address unrelated to any derivation. -/
def vaultWrong : AccountInfo := ⟨List.replicate 32 9, system_ID, 0, false⟩

/-- A well-formed 41-byte Deposit payload: `pkey33` and amount 0. -/
def depositData0 : List Nat := pkey33 ++ List.replicate 8 0

/-- A signing payer whose address differs from the one in `msg40`. -/
def payerB : AccountInfo := ⟨List.replicate 32 8, system_ID, 500, true⟩

/-- A Withdraw request whose payer does not match the signed claim. -/
def wWrongPayer : Withdraw := ⟨⟨payerB, vaultFunded, ixAcc⟩, ⟨[42]⟩⟩

end Vault

namespace Vault

/-- C7 counterexample: the Withdraw payload is not required to be exactly
one byte — a two-byte payload `[7, 8]` parses successfully (the extra
byte is ignored) — and the empty payload is rejected with
`InvalidAccountData`, not `InvalidInstructionData`. -/
theorem withdraw_payload_not_length_checked :
    WithdrawInstructionData.try_from [7, 8] = Except.ok ⟨[7]⟩ ∧
    WithdrawInstructionData.try_from [] = Except.error ProgramError.InvalidAccountData ∧
    ProgramError.InvalidAccountData ≠ ProgramError.InvalidInstructionData :=
  ⟨rfl, rfl, by decide⟩

/-- C7 amended: the Withdraw payload parser reads only the first byte as
the derivation bump; any payload with at least one byte is accepted
(extra bytes are ignored), and only the empty payload is rejected, with
error `InvalidAccountData`. -/
theorem withdraw_payload_first_byte_amended :
    (∀ b rest, WithdrawInstructionData.try_from (b :: rest) = Except.ok ⟨[b]⟩) ∧
    WithdrawInstructionData.try_from [] = Except.error ProgramError.InvalidAccountData :=
  ⟨fun _ _ => rfl, rfl⟩

/-- C8 counterexample: on the unknown discriminator `0x02` the dispatcher
fails with `InvalidAccountData`, which is not an invalid-instruction-data
error. -/
theorem dispatcher_unknown_discriminator_error_kind :
    process_instruction chOk [payerAcc, vaultEmpty, extraAcc] [2] =
      Except.error ProgramError.InvalidAccountData ∧
    ProgramError.InvalidAccountData ≠ ProgramError.InvalidInstructionData :=
  ⟨rfl, by decide⟩

/-- C8 amended: for every instruction whose first byte is neither 0
(Deposit) nor 1 (Withdraw), and for the empty instruction, the
dispatcher fails with `InvalidAccountData`; the error result carries no
state change, so nothing is partially dispatched. -/
theorem dispatcher_rejects_unknown_amended :
    (∀ (ch : Chain) (accounts : List AccountInfo) (d : Nat) (data : List Nat),
      d ≠ 0 → d ≠ 1 →
      process_instruction ch accounts (d :: data) =
        Except.error ProgramError.InvalidAccountData) ∧
    (∀ (ch : Chain) (accounts : List AccountInfo),
      process_instruction ch accounts [] =
        Except.error ProgramError.InvalidAccountData) := by
  constructor
  · intro ch accounts d data h0 h1
    match d, h0, h1 with
    | Nat.succ (Nat.succ n), _, _ => rfl
  · intro ch accounts
    rfl

/-- C8 witness: the amended dispatcher theorem applied at discriminator
3 and at the empty instruction. -/
theorem dispatcher_rejects_unknown_amended_witness :
    process_instruction chOk [] [3, 9] = Except.error ProgramError.InvalidAccountData ∧
    process_instruction chOk [] [] = Except.error ProgramError.InvalidAccountData :=
  ⟨dispatcher_rejects_unknown_amended.1 chOk [] 3 [9] (by decide) (by decide),
   dispatcher_rejects_unknown_amended.2 chOk []⟩

/-- C5: the per-vault state machine is enforced at account validation,
before any value moves (an error result carries no state change): a
Deposit whose well-formed account list presents a vault with non-zero
balance fails with `InvalidAccountData` whatever the payload (so
regardless of amount or key), and a Withdraw whose well-formed account
list presents a vault with zero balance fails with `InvalidAccountData`. -/
theorem vault_state_machine_rejections :
    (∀ (ch : Chain) (data : List Nat) (payer vault extra : AccountInfo),
      payer.is_signer = true → vault.is_owned_by system_ID = true → vault.lamports ≠ 0 →
      process_instruction ch [payer, vault, extra] (0 :: data) =
        Except.error ProgramError.InvalidAccountData) ∧
    (∀ (ch : Chain) (data : List Nat) (payer vault ixs extra : AccountInfo),
      payer.is_signer = true → vault.is_owned_by system_ID = true → vault.lamports = 0 →
      process_instruction ch [payer, vault, ixs, extra] (1 :: data) =
        Except.error ProgramError.InvalidAccountData) := by
  constructor
  · intro ch data payer vault extra hsig hown hlam
    simp [process_instruction, Deposit.try_from, DepositAccount.try_from, hsig, hown, hlam,
      bind, Except.bind]
  · intro ch data payer vault ixs extra hsig hown hlam
    simp [process_instruction, Withdraw.try_from, WithdrawAccounts.try_from, hsig, hown, hlam,
      bind, Except.bind]

/-- C5 witness: the state-machine theorem applied to a funded vault on
Deposit and an empty vault on Withdraw. -/
theorem vault_state_machine_rejections_witness :
    process_instruction chOk [payerAcc, vaultNonzero, extraAcc] [0] =
      Except.error ProgramError.InvalidAccountData ∧
    process_instruction chOk [payerAcc, vaultEmpty, ixAcc, extraAcc] [1] =
      Except.error ProgramError.InvalidAccountData :=
  ⟨vault_state_machine_rejections.1 chOk [] payerAcc vaultNonzero extraAcc rfl (by decide)
      (by decide),
   vault_state_machine_rejections.2 chOk [] payerAcc vaultEmpty ixAcc extraAcc rfl (by decide)
      rfl⟩

/-- C6 counterexample: a Deposit with a 0-byte payload (length ≠ 41) and
a non-signing payer fails with `InvalidAccountOwner`, the account-check
error: the account checks run before the payload length check, and the
failure is not `InvalidInstructionData`. -/
theorem deposit_account_checks_run_first_counterexample :
    process_instruction chOk [nonSignerAcc, vaultEmpty, extraAcc] [0] =
      Except.error ProgramError.InvalidAccountOwner ∧
    ProgramError.InvalidAccountOwner ≠ ProgramError.InvalidInstructionData :=
  ⟨rfl, by decide⟩

/-- C6 amended: a Deposit payload of length ≠ 41 fails with
`InvalidInstructionData`, but only after the account checks (signer,
ownership, zero balance) have passed — account validation runs first. -/
theorem deposit_bad_payload_after_account_checks
    (ch : Chain) (data : List Nat) (payer vault extra : AccountInfo)
    (hsig : payer.is_signer = true) (hown : vault.is_owned_by system_ID = true)
    (hlam : vault.lamports = 0) (hlen : data.length ≠ 41) :
    process_instruction ch [payer, vault, extra] (0 :: data) =
      Except.error ProgramError.InvalidInstructionData := by
  simp [process_instruction, Deposit.try_from, DepositAccount.try_from,
    DepositInstructionData.try_from, hsig, hown, hlam, hlen, bind, Except.bind]

/-- C6 witness: the amended payload-length theorem at a 1-byte payload. -/
theorem deposit_bad_payload_after_account_checks_witness :
    process_instruction chOk [payerAcc, vaultEmpty, extraAcc] [0, 9] =
      Except.error ProgramError.InvalidInstructionData :=
  deposit_bad_payload_after_account_checks chOk [9] payerAcc vaultEmpty extraAcc rfl
    (by decide) rfl (by decide)

/-- C3: for every Deposit whose accounts and payload are well-formed, if
the vault address derived from seeds `[b"vault", key[0..1], key[1..33]]`
under the program's own identity differs from the supplied vault's
address, the operation fails with `InvalidAccountOwner`; the error
result carries no state change, so no value moves. -/
theorem deposit_rejects_underived_vault
    (ch : Chain) (data : List Nat) (payer vault extra : AccountInfo)
    (hsig : payer.is_signer = true) (hown : vault.is_owned_by system_ID = true)
    (hlam : vault.lamports = 0) (hlen : data.length = 41)
    (hkey : (ch.find_program_address
        [vaultSeed, (data.take 33).take 1, ((data.take 33).drop 1).take 32] ID).1 ≠
        vault.key) :
    process_instruction ch [payer, vault, extra] (0 :: data) =
      Except.error ProgramError.InvalidAccountOwner := by
  rw [List.drop_one] at hkey
  simp [process_instruction, Deposit.try_from, DepositAccount.try_from,
    DepositInstructionData.try_from, Deposit.process, hsig, hown, hlam, hlen, hkey,
    bind, Except.bind]

/-- C3 witness: the derivation-check theorem applied to a vault account
whose address is unrelated to the stated key's derivation. -/
theorem deposit_rejects_underived_vault_witness :
    process_instruction chOk [payerAcc, vaultWrong, extraAcc] (0 :: depositData0) =
      Except.error ProgramError.InvalidAccountOwner :=
  deposit_rejects_underived_vault chOk depositData0 payerAcc vaultWrong extraAcc rfl
    (by decide) rfl (by decide) (by decide)

/-- C9: Deposit imposes no minimum amount: with well-formed accounts, a
41-byte payload whose amount field decodes to 0, and a matching derived
vault address, the operation passes every check, invokes a zero-value
transfer, and returns success with both balances unchanged. -/
theorem deposit_zero_amount_succeeds
    (ch : Chain) (data : List Nat) (payer vault extra : AccountInfo)
    (hsig : payer.is_signer = true) (hown : vault.is_owned_by system_ID = true)
    (hlam : vault.lamports = 0) (hlen : data.length = 41)
    (hamt : u64_from_le_bytes (data.drop 33) = 0)
    (hkey : (ch.find_program_address
        [vaultSeed, (data.take 33).take 1, ((data.take 33).drop 1).take 32] ID).1 =
        vault.key) :
    process_instruction ch [payer, vault, extra] (0 :: data) = Except.ok (payer, vault) := by
  rw [List.drop_one] at hkey
  simp only [AccountInfo.is_signer] at hsig
  simp [process_instruction, Deposit.try_from, DepositAccount.try_from,
    DepositInstructionData.try_from, Deposit.process, transfer_invoke, AccountInfo.is_signer,
    hsig, hown, hlam, hlen, hamt, hkey, bind, Except.bind]
  constructor
  · rw [← hsig]
  · rw [← hlam]

/-- C9 witness: a zero-amount deposit into the correctly derived empty
vault succeeds. -/
theorem deposit_zero_amount_succeeds_witness :
    process_instruction chOk [payerAcc, vaultEmpty, extraAcc] (0 :: depositData0) =
      Except.ok (payerAcc, vaultEmpty) :=
  deposit_zero_amount_succeeds chOk depositData0 payerAcc vaultEmpty extraAcc rfl
    (by decide) rfl (by decide) (by decide) (by decide)

/-- C2 counterexample: at clock 101 against expiry 100, a Withdraw that
passes every structural and payer check fails with
`InvalidInstructionData`, not the claimed `InvalidAccountData`. -/
theorem withdraw_expired_error_is_invalid_instruction_data :
    chExpired.now > i64_from_le_bytes (msg40.drop 32) ∧
    Withdraw.process chExpired w0 = Except.error ProgramError.InvalidInstructionData ∧
    ProgramError.InvalidInstructionData ≠ ProgramError.InvalidAccountData :=
  ⟨by decide, rfl, by decide⟩

/-- Reduction helper: under a successfully introspected single-signature
sibling instruction with a message of at least 32 bytes, `Withdraw.process`
reduces to the payer check, the expiry-shape check, the expiry comparison
and the seed-signed transfer, in the source's order. -/
theorem Withdraw.process_eq (ch : Chain) (w : Withdraw) (secp : Secp256r1Ix)
    (signer msg : List Nat)
    (hs : ch.sibling = Except.ok secp)
    (hn : secp.num_signatures = 1)
    (hg : secp.signers[0]? = some signer)
    (hm : secp.messages[0]? = some msg)
    (hlen : 32 ≤ msg.length) :
    Withdraw.process ch w =
      (if w.accounts.payer.key ≠ msg.take 32 then
        Except.error ProgramError.InvalidAccountOwner
      else if (msg.drop 32).length ≠ 8 then
        Except.error ProgramError.InvalidInstructionData
      else if ch.now > i64_from_le_bytes (msg.drop 32) then
        Except.error ProgramError.InvalidInstructionData
      else
        (transfer_invoke_signed ch w.accounts.vault w.accounts.payer
            w.accounts.vault.lamports
            [vaultSeed, signer.take 1, signer.drop 1, w.instruction_data.bump]).bind
          (fun r => Except.ok (r.2, r.1))) := by
  unfold Withdraw.process Secp256r1Ix.get_signer Secp256r1Ix.get_message_data
    split_at_checked
  rw [hs]
  simp only [bind, Except.bind, hg, hm, hn]
  rw [if_neg (fun h : (1 : Nat) ≠ 1 => h rfl), if_pos hlen]

/-- C2 amended: for every Withdraw whose introspected signature passes
the structural and payer checks, the operation fails with
`InvalidInstructionData` (not `InvalidAccountData`) whenever the clock
is strictly past the signed expiry, and whenever `now ≤ expiry` the
expiry check passes and execution proceeds directly to the signed
transfer — no grace window in either direction. -/
theorem withdraw_expiry_boundary_amended (ch : Chain) (w : Withdraw) (secp : Secp256r1Ix)
    (signer msg : List Nat)
    (hs : ch.sibling = Except.ok secp)
    (hn : secp.num_signatures = 1)
    (hg : secp.signers[0]? = some signer)
    (hm : secp.messages[0]? = some msg)
    (hlen : msg.length = 40)
    (hpayer : w.accounts.payer.key = msg.take 32) :
    (ch.now > i64_from_le_bytes (msg.drop 32) →
      Withdraw.process ch w = Except.error ProgramError.InvalidInstructionData) ∧
    (ch.now ≤ i64_from_le_bytes (msg.drop 32) →
      Withdraw.process ch w =
        (transfer_invoke_signed ch w.accounts.vault w.accounts.payer
            w.accounts.vault.lamports
            [vaultSeed, signer.take 1, signer.drop 1, w.instruction_data.bump]).bind
          (fun r => Except.ok (r.2, r.1))) := by
  have he := Withdraw.process_eq ch w secp signer msg hs hn hg hm (by omega)
  rw [he, if_neg (by simp [hpayer]), if_neg (by simp [hlen])]
  constructor
  · intro hexp
    rw [if_pos hexp]
  · intro hexp
    rw [if_neg (not_lt.mpr hexp)]

/-- C2 witness: the amended expiry theorem applied at clock 101 against
expiry 100 (`expiry == now - 1`). -/
theorem withdraw_expiry_boundary_amended_witness :
    Withdraw.process chExpired w0 = Except.error ProgramError.InvalidInstructionData :=
  (withdraw_expiry_boundary_amended chExpired w0 secp0 pkey33 msg40 rfl rfl rfl rfl
    (by decide) (by decide)).1 (by decide)

/-- C10: the payer-binding comparison precedes the clock read and the
expiry comparison: whenever the introspected signature's 32-byte payer
claim differs from the actual payer's address, the result is
`InvalidAccountOwner` for every clock value — in particular even when
the signature is also expired. -/
theorem withdraw_payer_check_precedes_expiry
    (ch : Chain) (w : Withdraw) (secp : Secp256r1Ix) (signer msg : List Nat)
    (hs : ch.sibling = Except.ok secp)
    (hn : secp.num_signatures = 1)
    (hg : secp.signers[0]? = some signer)
    (hm : secp.messages[0]? = some msg)
    (hlen : 32 ≤ msg.length)
    (hne : w.accounts.payer.key ≠ msg.take 32) :
    Withdraw.process ch w = Except.error ProgramError.InvalidAccountOwner := by
  rw [Withdraw.process_eq ch w secp signer msg hs hn hg hm hlen, if_pos hne]

/-- C10 witness: a wrong payer claim yields `InvalidAccountOwner` even
under the expired clock (101 > 100). -/
theorem withdraw_payer_check_precedes_expiry_witness :
    Withdraw.process chExpired wWrongPayer = Except.error ProgramError.InvalidAccountOwner :=
  withdraw_payer_check_precedes_expiry chExpired wWrongPayer secp0 pkey33 msg40 rfl rfl rfl
    rfl (by decide) (by decide)

/-- C4: a valid Withdraw (message = payer address followed by a
non-expired expiry, derivation matching the vault) moves exactly the
vault's entire pre-withdraw balance to the payer: the vault balance
becomes 0 and the payer balance increases by the pre-withdraw vault
balance. -/
theorem withdraw_moves_entire_balance
    (ch : Chain) (w : Withdraw) (secp : Secp256r1Ix) (signer msg : List Nat)
    (hs : ch.sibling = Except.ok secp)
    (hn : secp.num_signatures = 1)
    (hg : secp.signers[0]? = some signer)
    (hm : secp.messages[0]? = some msg)
    (hlen : msg.length = 40)
    (hpayer : w.accounts.payer.key = msg.take 32)
    (hexp : ch.now ≤ i64_from_le_bytes (msg.drop 32))
    (hderive : ch.create_program_address
        [vaultSeed, signer.take 1, signer.drop 1, w.instruction_data.bump] ID =
        some w.accounts.vault.key) :
    Withdraw.process ch w =
      Except.ok
        ({ w.accounts.payer with
            lamports := w.accounts.payer.lamports + w.accounts.vault.lamports },
         { w.accounts.vault with lamports := 0 }) := by
  rw [Withdraw.process_eq ch w secp signer msg hs hn hg hm (by omega),
    if_neg (by simp [hpayer]), if_neg (by simp [hlen]), if_neg (not_lt.mpr hexp)]
  unfold transfer_invoke_signed
  rw [hderive]
  simp [Nat.sub_self, bind, Except.bind]

/-- C4 witness: the full-balance theorem at the concrete fixture: the
vault's 900 lamports all move to the payer, whose balance goes from 500
to 1400. -/
theorem withdraw_moves_entire_balance_witness :
    Withdraw.process chOk w0 =
      Except.ok (⟨keyA, system_ID, 1400, true⟩, ⟨wVaultKey, system_ID, 0, false⟩) :=
  withdraw_moves_entire_balance chOk w0 secp0 pkey33 msg40 rfl rfl rfl rfl (by decide)
    (by decide) (by decide) (by decide)

/-- C1: the bump byte from the Withdraw payload is untrusted input: the
derived vault address is recomputed from the seeds
`[b"vault", signer[0..1], signer[1..33], bump]` under the program's own
identity, and whenever that recomputation does not yield exactly the
supplied vault account's address, the withdraw returns an error before
any value moves — the seeds are never honored as signing authority for
the transfer. -/
theorem withdraw_bump_recomputation_guards_transfer
    (ch : Chain) (w : Withdraw) (secp : Secp256r1Ix) (signer : List Nat)
    (hs : ch.sibling = Except.ok secp)
    (hg : secp.signers[0]? = some signer)
    (hmis : ch.create_program_address
        [vaultSeed, signer.take 1, signer.drop 1, w.instruction_data.bump] ID ≠
        some w.accounts.vault.key) :
    ∃ e, Withdraw.process ch w = Except.error e := by
  by_cases hn : secp.num_signatures = 1
  · rcases hM : secp.messages[0]? with _ | m
    · refine ⟨ProgramError.InvalidInstructionData, ?_⟩
      unfold Withdraw.process Secp256r1Ix.get_signer Secp256r1Ix.get_message_data
      rw [hs]
      simp only [bind, Except.bind, hg, hM, hn]
      rw [if_neg (fun h : (1 : Nat) ≠ 1 => h rfl)]
    · rcases le_or_lt 32 m.length with hml | hml
      · rw [Withdraw.process_eq ch w secp signer m hs hn hg hM hml]
        by_cases hpk : w.accounts.payer.key ≠ m.take 32
        · rw [if_pos hpk]; exact ⟨_, rfl⟩
        · rw [if_neg hpk]
          by_cases hlen8 : (m.drop 32).length ≠ 8
          · rw [if_pos hlen8]; exact ⟨_, rfl⟩
          · rw [if_neg hlen8]
            by_cases hexp : ch.now > i64_from_le_bytes (m.drop 32)
            · rw [if_pos hexp]; exact ⟨_, rfl⟩
            · rw [if_neg hexp]
              have hmv : ∃ e, transfer_invoke_signed ch w.accounts.vault w.accounts.payer
                  w.accounts.vault.lamports
                  [vaultSeed, signer.take 1, signer.drop 1, w.instruction_data.bump] =
                  Except.error e := by
                unfold transfer_invoke_signed
                rcases hC : ch.create_program_address
                    [vaultSeed, signer.take 1, signer.drop 1, w.instruction_data.bump] ID
                    with _ | d
                · exact ⟨_, rfl⟩
                · have hd : w.accounts.vault.key ≠ d := fun h => hmis (by rw [hC, ← h])
                  refine ⟨ProgramError.MissingRequiredSignature, ?_⟩
                  simp [hd]
              obtain ⟨e, he⟩ := hmv
              refine ⟨e, ?_⟩
              rw [he]
              rfl
      · refine ⟨ProgramError.InvalidInstructionData, ?_⟩
        unfold Withdraw.process Secp256r1Ix.get_signer Secp256r1Ix.get_message_data
          split_at_checked
        rw [hs]
        simp only [bind, Except.bind, hg, hM, hn]
        rw [if_neg (fun h : (1 : Nat) ≠ 1 => h rfl), if_neg (not_le.mpr hml)]
  · refine ⟨ProgramError.InvalidInstructionData, ?_⟩
    unfold Withdraw.process
    rw [hs]
    simp only [bind, Except.bind]
    rw [if_pos hn]

/-- C1 witness: with the wrong bump 43 the recomputed address differs
from the vault's, and the withdraw fails. -/
theorem withdraw_bump_recomputation_guards_transfer_witness :
    ∃ e, Withdraw.process chOk wBadBump = Except.error e :=
  withdraw_bump_recomputation_guards_transfer chOk wBadBump secp0 pkey33 rfl rfl (by decide)

end Vault
